import Mathlib

/-!
Verification development for the reactive synchronization engine of the
image-mixer / beamforming editor. The definitions below are a shallow
embedding of the frontend sources:

* `Config`, `updateConfigOp`, `updateArrayOp`, `addArrayOp`, `removeArrayOp`
  embed the configuration object and the partial-update callbacks of
  `SimulatorContext.jsx` (the localStorage-backed variant).
* `SimState` / `simStep` embed the provider's persistent state
  (config, currentScenario, lastSavedRef, isDirtyRef, lastSaveTime and the
  three localStorage slots) and the effects that run on config changes,
  on `saveScenario`, and on `loadScenario`.
* `unloadHandler` embeds the `beforeunload` handler.
* `bootstrapSequencer` embeds the bootstrap `initialize` routine.
* `debounceEmits` embeds `useDebounce`, and `effectCalls` the
  "calculate when config changes" effect, which re-runs both on a
  debounced-value change and when `calculate` is recreated by an
  `initializing` flip.
* `CalcState` / `calcStep` embed the `calculate` fast path as a trace
  semantics over invocations and (possibly out-of-order) responses.
* `MixState` / `mixStep` embed `mixImages` of `ImageMixerContext.jsx` as a
  trace semantics: generation start (cancel previous token, start ticker,
  issue request), ticker ticks, response delivery (success / failure /
  cancellation rejection), and the 500 ms success-settle timer.
* `MixerUIState` / `mixSuccessApply` embed the success branch of
  `mixImages`, and `PageState` / `pollTick` embed `pollProgress` of
  `MixerPage.jsx` (which closes over the `outputs` array and
  `activeOutput` index captured when polling began).

Ghost fields (`appliedLog`, `staleApplies`, `fetched`, `resultGen`) record
observable actions (result applications, remote fetches) and are written
exactly where the corresponding source line performs the action.
-/

/-- One antenna-array entry of the beamforming configuration: an `id`
plus the remaining key/value fields, abstracted as string-keyed numbers. -/
structure ArrayCfg where
  id : String
  entries : List (String × Nat)
deriving DecidableEq

/-- The editable configuration object: top-level key/value fields plus the
optional `arrays` list (`none` models a missing/null `arrays` property;
note that an empty JS array is truthy, so `some []` passes the
`!prev.arrays` guard while `none` does not). -/
structure Config where
  entries : List (String × Nat)
  arrays : Option (List ArrayCfg)
deriving DecidableEq

/-- JS object-spread merge `{...base, ...updates}`: keys of `updates`
override keys of `base`. -/
def objMerge (base updates : List (String × Nat)) : List (String × Nat) :=
  (base.filter (fun p => !(updates.any (fun q => q.1 == p.1)))) ++ updates

/-- `updateConfig` of `SimulatorContext.jsx`:
`setConfig(prev => { if (!prev) return prev; return {...prev, ...updates}; })`. -/
def updateConfigOp (updates : List (String × Nat)) : Option Config → Option Config
  | none => none
  | some prev => some { prev with entries := objMerge prev.entries updates }

/-- `updateArray`: no-op when `prev` is null or has no `arrays`; otherwise
maps over the arrays, merging `updates` into the entry whose id matches. -/
def updateArrayOp (arrayId : String) (updates : List (String × Nat)) :
    Option Config → Option Config
  | none => none
  | some prev =>
    match prev.arrays with
    | none => some prev
    | some arrs =>
      let arrs2 := arrs.map (fun a =>
        if a.id == arrayId then { a with entries := objMerge a.entries updates } else a)
      some { prev with arrays := some arrs2 }

/-- `addArray`: no-op when `prev` is null; otherwise appends to the
(possibly absent, defaulted-to-empty) arrays list. -/
def addArrayOp (arrayConfig : ArrayCfg) : Option Config → Option Config
  | none => none
  | some prev => some { prev with arrays := some ((prev.arrays.getD []) ++ [arrayConfig]) }

/-- `removeArray`: no-op when `prev` is null or has no `arrays`; otherwise
filters out the array with the given id. -/
def removeArrayOp (arrayId : String) : Option Config → Option Config
  | none => none
  | some prev =>
    match prev.arrays with
    | none => some prev
    | some arrs =>
      some { prev with arrays := some (arrs.filter (fun a => !(a.id == arrayId))) }

/-- A concrete JSON-like serializer for `Config`, standing in for
`JSON.stringify` in executable counterexamples (the trace model itself is
parameterized over an arbitrary, possibly failing serializer). -/
def encodeEntries (l : List (String × Nat)) : String :=
  String.intercalate "," (l.map (fun p => p.1 ++ ":" ++ toString p.2))

/-- Encoding of one array entry, used by `serializeC`. -/
def encodeArray (a : ArrayCfg) : String :=
  a.id ++ ";" ++ encodeEntries a.entries

/-- Concrete total serializer used to evaluate the trace models. -/
def serializeC (c : Config) : Option String :=
  some (encodeEntries c.entries ++ "|" ++
    (match c.arrays with
     | none => "-"
     | some l => String.intercalate "&" (l.map encodeArray)))

/-- Sample configurations for concrete evaluations. -/
def cfgA : Config := { entries := [], arrays := none }

/-- A configuration with a nonempty arrays list (passes the compute guard). -/
def cfgB : Config :=
  { entries := [("medium", 1)], arrays := some [{ id := "a1", entries := [("n", 16)] }] }

/-- A configuration whose `arrays` list is present but empty (fails the
compute guard `debouncedConfig.arrays.length > 0`). -/
def cfgNoArr : Config := { entries := [("medium", 1)], arrays := some [] }

/-- `cfgA` after adding one array: the result of an edit made while a
save of `cfgA` is still in flight. -/
def cfgA1 : Config := { entries := [], arrays := some [{ id := "a1", entries := [] }] }

/-! ## Simulator provider state and effects (`SimulatorContext.jsx`) -/

/-- The persistent state of the simulator provider: React state
(`config`, `currentScenario`, `lastSaveTime`, `error`), the refs
(`lastSavedRef`, `isDirtyRef`), the three localStorage slots
(`simulator_config`, `simulator_current_scenario`,
`simulator_last_save_time`), and `pendingSaves`, the in-flight
`saveScenario` calls. `saveScenario` is async and closes over the
`config` current when it was invoked (its `useCallback` dependency) and
its `scenarioId` argument; the continuation after the network await uses
those captured values, so each pending save carries them. -/
structure SimState where
  config : Option Config
  currentScenario : Option String
  lastSaved : Option String
  dirty : Bool
  lastSaveTime : Option String
  localConfig : Option String
  localScenario : Option String
  localLastSave : Option String
  error : Option String
  pendingSaves : List (String × Config)
deriving DecidableEq

/-- The provider's initial state (all refs null, `isDirtyRef` false,
localStorage empty for a fresh session). -/
def simInit : SimState :=
  { config := none, currentScenario := none, lastSaved := none, dirty := false,
    lastSaveTime := none, localConfig := none, localScenario := none,
    localLastSave := none, error := none, pendingSaves := [] }

/-- A configuration mutation: one of the four partial-update callbacks. -/
inductive Mut where
  | upd (updates : List (String × Nat))
  | updArr (arrayId : String) (updates : List (String × Nat))
  | add (arrayConfig : ArrayCfg)
  | rem (arrayId : String)
deriving DecidableEq

/-- Apply a mutation to the current (nullable) configuration. -/
def applyMut : Mut → Option Config → Option Config
  | .upd u => updateConfigOp u
  | .updArr i u => updateArrayOp i u
  | .add a => addArrayOp a
  | .rem i => removeArrayOp i

/-- Events of the simulator provider relevant to persistence: a mutation
(with its follow-up effects), a successful or failed `loadScenario`, the
invocation of `saveScenario` (which captures the current config and
scenario id and issues the PUT), and the later success or failure
completion of an in-flight save (identified by its captured values;
completions of distinct in-flight saves may arrive in any order). -/
inductive SimEv where
  | mutate (m : Mut)
  | load (scenarioId : String) (data : Config)
  | loadFail (msg : String)
  | saveStart
  | saveDoneOk (scenarioId : String) (captured : Config) (now : String)
  | saveDoneFail (scenarioId : String) (captured : Config) (msg : String)
deriving DecidableEq

/-- The `localStorage.setItem(CURRENT_SCENARIO, currentScenario)` effect
(runs whenever `currentScenario` is non-null). -/
def persistScenarioSlot (s : SimState) : SimState :=
  match s.currentScenario with
  | some sid => { s with localScenario := some sid }
  | none => s

/-- The effects observing `config`: the write-through
`localStorage.setItem(CONFIG, JSON.stringify(config))` effect and the
dirty-tracking effect
`isDirtyRef.current = lastSavedRef.current !== JSON.stringify(config)`
with its `catch` setting `isDirtyRef.current = true` (both skipped when
`config` is null). -/
def dirtyWriteEffects (serialize : Config → Option String) (s : SimState) : SimState :=
  match s.config with
  | none => s
  | some c =>
    match serialize c with
    | some str =>
      { s with localConfig := some str, dirty := decide (s.lastSaved ≠ some str) }
    | none => { s with dirty := true }

/-- All follow-up effects of a config/scenario change. -/
def applyConfigEffects (serialize : Config → Option String) (s : SimState) : SimState :=
  dirtyWriteEffects serialize (persistScenarioSlot s)

/-- One provider step. `mutate` applies the updater and then the config
effects; `load` sets scenario/config/error and runs the effects;
`saveStart` mirrors the invocation of `saveScenario` up to its await
(guarded by `if (!config || !scenarioId) return` on the values current at
call time): the current config and scenario id are captured by the
closure and the PUT is issued. `saveDoneOk` mirrors the continuation
after a successful await, which uses the CAPTURED config, not the one
current at completion: write the LAST_SAVE localStorage slot and
`lastSaveTime`, then set `lastSavedRef` to the serialized captured config
and clear `isDirtyRef` (if `JSON.stringify` throws there, the catch only
records the error). `saveDoneFail` records the error. Completions whose
captured pair is not pending are no-ops. -/
def simStep (serialize : Config → Option String) (s : SimState) : SimEv → SimState
  | .mutate m => applyConfigEffects serialize { s with config := applyMut m s.config }
  | .load sid data =>
    applyConfigEffects serialize
      { s with currentScenario := some sid, config := some data, error := none }
  | .loadFail msg => { s with error := some msg }
  | .saveStart =>
    match s.config, s.currentScenario with
    | some c, some sid => { s with pendingSaves := s.pendingSaves ++ [(sid, c)] }
    | _, _ => s
  | .saveDoneOk sid c now =>
    if (sid, c) ∈ s.pendingSaves then
      let s1 := { s with pendingSaves := s.pendingSaves.erase (sid, c),
                         localLastSave := some now, lastSaveTime := some now }
      match serialize c with
      | some str => { s1 with lastSaved := some str, dirty := false }
      | none => { s1 with error := some "serialize error" }
    else s
  | .saveDoneFail sid c msg =>
    if (sid, c) ∈ s.pendingSaves then
      { s with pendingSaves := s.pendingSaves.erase (sid, c), error := some msg }
    else s

/-- Run a list of provider events from the initial state. -/
def simRun (serialize : Config → Option String) (es : List SimEv) : SimState :=
  es.foldl (simStep serialize) simInit

/-- The guard of the auto-save effect
(`if (debouncedConfig && currentScenario) { setTimeout(() => saveScenario(currentScenario), 500) }`):
the remote save is scheduled exactly when the debounced configuration and
the current scenario id are both non-null. -/
def autosaveEffectFires (debouncedConfig : Option Config)
    (currentScenario : Option String) : Bool :=
  debouncedConfig.isSome && currentScenario.isSome

/-- The guard of `saveScenario` itself: `if (!config || !scenarioId) return`. -/
def saveScenarioProceeds (config : Option Config) (scenarioId : Option String) : Bool :=
  config.isSome && scenarioId.isSome

/-- A network write attempted by the `beforeunload` handler: a keepalive
PUT via `fetch`, or a `navigator.sendBeacon` POST. -/
inductive NetWrite where
  | put (scenarioId : String) (body : String)
  | beacon (scenarioId : String) (body : String)
deriving DecidableEq

/-- The `beforeunload` handler. Returns the state after the handler and
the list of attempted network writes. Mirrors the source: bail out when
scenario or config is null; serialize the config (a `JSON.stringify`
throw is swallowed by the outer catch, doing nothing); return early when
the serialized config equals `lastSavedRef` (nothing at all happens in
that case); otherwise attempt `fetch` keepalive (falling back to
`sendBeacon` only when `fetch` itself throws), and then always write the
CONFIG and LAST_SAVE localStorage slots and `lastSaveTime`. -/
def unloadHandler (serialize : Config → Option String) (now : String)
    (fetchOk beaconAvail : Bool) (s : SimState) : SimState × List NetWrite :=
  match s.currentScenario, s.config with
  | some sc, some c =>
    match serialize c with
    | some str =>
      if s.lastSaved = some str then (s, [])
      else
        let writes :=
          if fetchOk then [NetWrite.put sc str]
          else if beaconAvail then [NetWrite.beacon sc str]
          else []
        ({ s with localConfig := some str, localLastSave := some now,
                  lastSaveTime := some now }, writes)
    | none => (s, [])
  | _, _ => (s, [])

/-! ## Debounce filter and compute-trigger guard -/

/-- `useDebounce` semantics on a time-ordered list of edits `(t, v)`:
each edit schedules an emission of its value at `t + W`; a later edit
arriving strictly before that fire time clears the pending timer (the
effect cleanup `clearTimeout(handler)`). The result is the list of
emissions in time order. -/
def debounceEmits (W : Nat) : List (Nat × Config) → List (Nat × Config)
  | [] => []
  | [p] => [(p.1 + W, p.2)]
  | p :: q :: rest =>
    if q.1 < p.1 + W then debounceEmits W (q :: rest)
    else (p.1 + W, p.2) :: debounceEmits W (q :: rest)

/-- The guard of the compute-trigger effect:
`debouncedConfig && debouncedConfig.arrays && debouncedConfig.arrays.length > 0`. -/
def hasArrays (c : Config) : Bool :=
  match c.arrays with
  | some l => decide (0 < l.length)
  | none => false

/-- A trigger of the compute effect. Its dependency array is
`[debouncedConfig, calculate]`, so it re-runs both when the debounced
value changes (`emit`) and when the `calculate` callback is recreated —
which happens whenever the `initializing` flag flips (first results
arriving, a calculation error during init, or the 10 s safety timeout),
since `calculate`'s `useCallback` deps are `[debouncedConfig,
initializing]` (`calcRecreated`). -/
inductive ComputeTrigger where
  | emit (v : Config)
  | calcRecreated
deriving DecidableEq

/-- One run of the compute-trigger effect. The state is the current
debounced value paired with the list of `apiService.calculate` calls
fired so far. On a value change the effect runs with the new value; on a
`calculate` recreation it re-runs with the unchanged current value. In
both cases it fires one call carrying the current debounced value iff
that value passes the `hasArrays` guard. -/
def effectStep : (Option Config × List Config) → ComputeTrigger → (Option Config × List Config)
  | (_, calls), .emit v => (some v, if hasArrays v then calls ++ [v] else calls)
  | (cur, calls), .calcRecreated =>
    (cur,
      match cur with
      | some v => if hasArrays v then calls ++ [v] else calls
      | none => calls)

/-- The computation calls fired by the compute-trigger effect over a
sequence of triggers, starting from the initial debounced value. -/
def effectCalls (init : Option Config) (ts : List ComputeTrigger) : List Config :=
  (ts.foldl effectStep (init, [])).2

/-- A burst predicate: consecutive edits arrive strictly within `W` of
each other. -/
@[reducible] def BurstWithin (W : Nat) (l : List (Nat × Config)) : Prop :=
  List.Chain' (fun a b => b.1 < a.1 + W) l

/-! ## Fast-path compute scheduler (`calculate`) as a trace semantics -/

/-- State of the `calculate` fast path. Each invocation is a generation
(numbered by `nextGen`); `outstanding` lists generations whose request has
been sent but whose response has not yet been processed. The source has
no generation token: a response is applied to `results` unconditionally.
Ghost fields: `resultGen` is the generation whose payload is currently
displayed, and `staleApplies` logs every application performed by a
generation that had already been superseded (a later invocation happened
before its response). -/
structure CalcState where
  nextGen : Nat
  outstanding : List Nat
  loading : Bool
  results : Option Nat
  error : Option String
  resultGen : Option Nat
  staleApplies : List Nat
deriving DecidableEq

/-- Initial compute-scheduler state. -/
def calcInit : CalcState :=
  { nextGen := 0, outstanding := [], loading := false, results := none,
    error := none, resultGen := none, staleApplies := [] }

/-- Events of the fast path: an invocation of `calculate` (with a non-null
debounced config), and the delivery of a success or failure response for
an outstanding generation — responses may arrive in any order. -/
inductive CalcEv where
  | invoke
  | respond (g : Nat) (payload : Nat)
  | respondErr (g : Nat) (msg : String)
deriving DecidableEq

/-- One step of the fast path. `invoke` mirrors
`setLoading(true); await apiService.calculate(debouncedConfig)` — request
sent, generation counter bumped. `respond` mirrors
`setResults(data); setError(null)` in the continuation, applied
unconditionally (no staleness check in the source); the ghost
`staleApplies` records the application when a later generation had
already been triggered. `respondErr` mirrors the catch branch. -/
def calcStep (s : CalcState) : CalcEv → CalcState
  | .invoke =>
    { s with loading := true, outstanding := s.outstanding ++ [s.nextGen],
             nextGen := s.nextGen + 1 }
  | .respond g payload =>
    if g ∈ s.outstanding then
      { s with outstanding := s.outstanding.erase g,
               results := some payload, error := none, loading := false,
               resultGen := some g,
               staleApplies :=
                 if g + 1 = s.nextGen then s.staleApplies else s.staleApplies ++ [g] }
    else s
  | .respondErr g msg =>
    if g ∈ s.outstanding then
      { s with outstanding := s.outstanding.erase g,
               error := some msg, loading := false }
    else s

/-- Run a list of fast-path events from the initial state. -/
def calcRun (es : List CalcEv) : CalcState :=
  es.foldl calcStep calcInit

/-! ## Mixing call (`mixImages` of `ImageMixerContext.jsx`) as a trace
semantics -/

/-- State of the mixing operation class. `token` is `mixCancelToken`
(the generation currently holding the axios cancel token);
`cancelledGens` the generations whose token has been cancelled;
`outstanding` the generations with an in-flight `/mix/` request;
`activeTickers` the generations whose 100 ms progress interval is still
installed; `settleTimers` the pending 500 ms success-settle timeouts.
`appliedLog` is a ghost log of the generations whose `image_data` was
written to the output slot, and `outputOwner` the generation owning the
currently displayed output. -/
structure MixState where
  nextGen : Nat
  token : Option Nat
  cancelledGens : List Nat
  outstanding : List Nat
  activeTickers : List Nat
  settleTimers : List Nat
  isMixing : Bool
  mixingProgress : Nat
  appliedLog : List Nat
  outputOwner : Option Nat
deriving DecidableEq

/-- Initial mixing state. -/
def mixInit : MixState :=
  { nextGen := 0, token := none, cancelledGens := [], outstanding := [],
    activeTickers := [], settleTimers := [], isMixing := false,
    mixingProgress := 0, appliedLog := [], outputOwner := none }

/-- Events of the mixing class: a new `mixImages` call, a tick of a
generation's progress interval, delivery of a generation's response
(`ok = true` success, `ok = false` failure; a cancelled generation's
await instead rejects with a cancellation error), and the firing of a
generation's success-settle timeout. Events whose timer/request is no
longer installed are no-ops. -/
inductive MixEv where
  | start
  | tick (g : Nat)
  | respond (g : Nat) (ok : Bool)
  | settle (g : Nat)
deriving DecidableEq

/-- One step of the mixing class, line-for-line from `mixImages`:

* `start`: `mixCancelToken.cancel(...)` on the previous holder, then
  `setMixCancelToken(source); setIsMixing(true); setMixingProgress(0)`,
  install the 100 ms ticker, send the request.
* `tick g`: the interval callback
  `prev >= 90 ? (clearInterval; prev) : prev + 10`.
* `respond g true` for an uncancelled generation: `clearInterval;
  setMixingProgress(100)`, write the output (ghost `appliedLog`),
  `setIsMixing(false); setMixCancelToken(null)`, schedule the 500 ms
  settle timeout.
* `respond g _` for a cancelled generation (the axios.isCancel branch):
  `setIsMixing(false); setMixCancelToken(null); setMixingProgress(0)` —
  note the ticker is NOT cleared (`progressInterval` is scoped inside the
  `try` block and unreachable from `catch`).
* `respond g false` (failure branch): same resets, ticker likewise NOT
  cleared.
* `settle g`: the settle timeout fires, `setMixingProgress(0)`. -/
def mixStep (s : MixState) : MixEv → MixState
  | .start =>
    let cancelled :=
      match s.token with
      | some p => s.cancelledGens ++ [p]
      | none => s.cancelledGens
    { s with token := some s.nextGen, cancelledGens := cancelled,
             isMixing := true, mixingProgress := 0,
             activeTickers := s.activeTickers ++ [s.nextGen],
             outstanding := s.outstanding ++ [s.nextGen],
             nextGen := s.nextGen + 1 }
  | .tick g =>
    if g ∈ s.activeTickers then
      if 90 ≤ s.mixingProgress then { s with activeTickers := s.activeTickers.erase g }
      else { s with mixingProgress := s.mixingProgress + 10 }
    else s
  | .respond g ok =>
    if g ∈ s.outstanding then
      let s1 := { s with outstanding := s.outstanding.erase g }
      if g ∈ s1.cancelledGens then
        { s1 with isMixing := false, token := none, mixingProgress := 0 }
      else if ok then
        { s1 with activeTickers := s1.activeTickers.erase g,
                  mixingProgress := 100,
                  appliedLog := s1.appliedLog ++ [g], outputOwner := some g,
                  isMixing := false, token := none,
                  settleTimers := s1.settleTimers ++ [g] }
      else
        { s1 with isMixing := false, token := none, mixingProgress := 0 }
    else s
  | .settle g =>
    if g ∈ s.settleTimers then
      { s with settleTimers := s.settleTimers.erase g, mixingProgress := 0 }
    else s

/-- Run a list of mixing events from the initial state. -/
def mixRun (es : List MixEv) : MixState :=
  es.foldl mixStep mixInit

/-- The invariant bundle used for the mixing class: applied results never
come from cancelled generations; the token holder has not been applied;
outstanding and applied generations are below the generation counter; and
progress never exceeds 100. -/
def MixInv (s : MixState) : Prop :=
  (∀ g ∈ s.appliedLog, g ∉ s.cancelledGens) ∧
  (∀ p, s.token = some p → p ∉ s.appliedLog) ∧
  (∀ g ∈ s.outstanding, g < s.nextGen) ∧
  (∀ g ∈ s.appliedLog, g < s.nextGen) ∧
  s.mixingProgress ≤ 100

/-- Discriminates the mixing events that belong to generation `g`'s own
forward activity: its ticker ticks and its successful completion. -/
def ownMixEvent (g : Nat) : MixEv → Bool
  | .tick g2 => g == g2
  | .respond g2 ok => g == g2 && ok
  | _ => false

/-! ## Mixer UI success branch and page-level poller -/

/-- The mixer context's UI state relevant to the success branch of
`mixImages`: the four input image slots, the weights, modes and region
modes read by the request, the two output slots, the selected output
viewer, and the operation flags. -/
structure MixerUIState where
  images : Fin 4 → Option Nat
  imageWeights : Fin 4 → Nat
  imageModes : Fin 4 → String
  imageRegionModes : Fin 4 → String
  outputImages : Fin 2 → Option Nat
  currentOutputViewer : Fin 2
  isMixing : Bool
  mixingProgress : Nat
  mixCancelToken : Option Nat

/-- The success branch of `mixImages` (`response.data.success`):
`setMixingProgress(100)`, then
`newOutputImages = [...outputImagesRef.current];
newOutputImages[currentOutputViewerRef.current] = response.data.image_data;
setOutputImages(newOutputImages); setIsMixing(false);
setMixCancelToken(null)`. The refs hold the latest state, so the write
targets the output viewer selected at completion time. -/
def mixSuccessApply (s : MixerUIState) (imageData : Nat) : MixerUIState :=
  { s with mixingProgress := 100,
           outputImages :=
             Function.update s.outputImages s.currentOutputViewer (some imageData),
           isMixing := false, mixCancelToken := none }

/-- `MixerPage` state relevant to `pollProgress`: the two output slots,
the active output selector, the mixing flag, the (server-reported,
fractional) progress value and the current operation id. -/
structure PageState where
  outputs : Fin 2 → Option Nat
  activeOutput : Fin 2
  mixing : Bool
  progress : Option Int
  currentOperation : Option Nat

/-- A response of the `/mixer/mix/progress/` endpoint (or a transport
error caught by the poll callback). -/
inductive PollResp where
  | running (p : Int)
  | completed (p : Int) (result : Nat)
  | failed (p : Int) (err : Option String)
  | cancelled (p : Int) (err : Option String)
  | netError

/-- One tick of the `pollProgress` interval. The closure captured
`outputs` and `activeOutput` at the render in which polling started
(`capturedOutputs`, `capturedActive`); the completed branch builds
`newOutputs = [...outputs]; newOutputs[activeOutput] = result` from those
captured values, not from the current state. `setProgress(prog)` runs on
every response before the status branch; terminal branches clear the
interval (returned boolean), stop mixing, and null the progress. -/
def pollTick (capturedOutputs : Fin 2 → Option Nat) (capturedActive : Fin 2)
    (s : PageState) : PollResp → PageState × Bool
  | .running p => ({ s with progress := some p }, false)
  | .completed _ r =>
    ({ s with progress := none, mixing := false,
              outputs := Function.update capturedOutputs capturedActive (some r),
              currentOperation := none }, true)
  | .failed _ _ =>
    ({ s with progress := none, mixing := false, currentOperation := none }, true)
  | .cancelled _ _ =>
    ({ s with progress := none, mixing := false, currentOperation := none }, true)
  | .netError => ({ s with progress := none, mixing := false }, true)

/-! ## Bootstrap sequencer (`initialize` in `SimulatorContext.jsx`) -/

/-- A catalog entry returned by `getScenarios`. -/
structure ScenarioMeta where
  id : String
  label : String
deriving DecidableEq

/-- Outcome of the bootstrap sequencer: the resulting provider fields
plus the ghost `fetched` log of remote `getScenario` calls. -/
structure InitOutcome where
  currentScenario : Option String
  config : Option Config
  lastSaved : Option String
  fetched : List String
  error : Bool
  initializing : Bool
deriving DecidableEq

/-- The localStorage-restore condition of the bootstrap sequencer:
`savedScenarioId && savedConfig && scenariosData.some(s => s.id === savedScenarioId)`. -/
def localUsable (catalog : List ScenarioMeta)
    (savedId savedCfg : Option String) : Bool :=
  match savedId, savedCfg with
  | some sid, some _ => catalog.any (fun m => m.id == sid)
  | _, _ => false

/-- The local-restore branch: `data = JSON.parse(savedConfig)` (a parse
throw lands in the scenario catch: error recorded, nothing loaded), then
`setCurrentScenario(savedScenarioId); setConfig(data)`; `lastSavedRef` is
NOT set in this branch, and no remote fetch of the item happens. -/
def initFromLocal (parse : String → Option Config) (sid cfgStr : String) :
    InitOutcome :=
  match parse cfgStr with
  | some data =>
    { currentScenario := some sid, config := some data, lastSaved := none,
      fetched := [], error := false, initializing := false }
  | none =>
    { currentScenario := none, config := none, lastSaved := none,
      fetched := [], error := true, initializing := false }

/-- The remote branch: fetch the first catalog entry
(`apiService.getScenario(scenariosData[0].id)`, logged in `fetched`), set
it as the current config and treat its serialization as the already-saved
baseline (`lastSavedRef.current = JSON.stringify(data)`, `null` on a
stringify throw). A fetch failure lands in the scenario catch. When the
catalog is empty nothing is loaded. -/
def initFallback (serialize : Config → Option String)
    (fetchScenario : String → Option Config)
    (catalog : List ScenarioMeta) : InitOutcome :=
  match catalog.head? with
  | some m =>
    match fetchScenario m.id with
    | some data =>
      { currentScenario := some m.id, config := some data,
        lastSaved := serialize data, fetched := [m.id], error := false,
        initializing := false }
    | none =>
      { currentScenario := none, config := none, lastSaved := none,
        fetched := [m.id], error := true, initializing := false }
  | none =>
    { currentScenario := none, config := none, lastSaved := none,
      fetched := [], error := false, initializing := false }

/-- The bootstrap sequencer, from the point where the catalog has been
fetched and the two localStorage slots have been read: restore from the
local cache when the cached id is present in the fresh catalog and a
cached config string exists, otherwise fall back to fetching the first
catalog entry remotely. -/
def bootstrapSequencer (serialize : Config → Option String)
    (parse : String → Option Config) (fetchScenario : String → Option Config)
    (catalog : List ScenarioMeta) (savedId savedCfg : Option String) :
    InitOutcome :=
  match savedId, savedCfg with
  | some sid, some cfgStr =>
    if catalog.any (fun m => m.id == sid) then initFromLocal parse sid cfgStr
    else initFallback serialize fetchScenario catalog
  | _, _ => initFallback serialize fetchScenario catalog

/-! ## Invariants and fixtures used by the theorems -/

/-- The dirty-tracking invariant: whenever a configuration is loaded, the
dirty flag equals the comparison of its serialization against the last
saved snapshot, and a serialization failure forces `dirty = true`. -/
def DirtyInv (serialize : Config → Option String) (s : SimState) : Prop :=
  ∀ c, s.config = some c →
    (∀ str, serialize c = some str → s.dirty = decide (s.lastSaved ≠ some str)) ∧
    (serialize c = none → s.dirty = true)

/-- A concrete mixer-context state used to instantiate frame theorems. -/
def mixerUIEx : MixerUIState :=
  { images := fun _ => none, imageWeights := fun _ => 0,
    imageModes := fun _ => "MAGNITUDE", imageRegionModes := fun _ => "INNER",
    outputImages := fun _ => none, currentOutputViewer := 0,
    isMixing := true, mixingProgress := 90, mixCancelToken := some 0 }

/-- A concrete page state used for the poller counterexample: the user has
switched the active output viewer to 1 while the poll loop (started when
viewer 0 was active) is still running. -/
def pageEx : PageState :=
  { outputs := fun _ => none, activeOutput := 1, mixing := true,
    progress := some 0, currentOperation := some 5 }

/-- A concrete parse oracle for bootstrap instantiations. -/
def parseEx : String → Option Config := fun _ => some cfgB

/-- A concrete remote-fetch oracle for bootstrap instantiations. -/
def fetchEx : String → Option Config := fun _ => some cfgA

/-- A concrete two-entry catalog for bootstrap instantiations. -/
def catalogEx : List ScenarioMeta :=
  [{ id := "s1", label := "L1" }, { id := "s2", label := "L2" }]

/-! ## Helper lemmas -/

theorem mixInv_init : MixInv mixInit := by
  refine ⟨?_, ?_, ?_, ?_, ?_⟩ <;> simp [mixInit, MixInv]

theorem mixInv_step (s : MixState) (e : MixEv) (h : MixInv s) : MixInv (mixStep s e) := by
  obtain ⟨h1, h2, h3, h4, h5⟩ := h
  cases e with
  | start =>
    refine ⟨?_, ?_, ?_, ?_, ?_⟩
    · intro g hg
      cases htok : s.token with
      | none => simpa [mixStep, htok] using h1 g hg
      | some p =>
        simp only [mixStep, htok, List.mem_append, List.mem_singleton]
        push_neg
        exact ⟨h1 g hg, fun hgp => (h2 p htok) (hgp ▸ hg)⟩
    · intro p hp
      simp only [mixStep, Option.some.injEq] at hp
      intro hmem
      exact absurd (h4 _ hmem) (hp ▸ Nat.lt_irrefl _)
    · intro g hg
      simp only [mixStep, List.mem_append, List.mem_singleton] at hg
      rcases hg with hg | hg
      · exact Nat.lt_succ_of_lt (h3 g hg)
      · simp [mixStep, hg]
    · intro g hg
      simp only [mixStep] at hg
      exact Nat.lt_succ_of_lt (h4 g hg)
    · simp [mixStep]
  | tick g =>
    by_cases hm : g ∈ s.activeTickers
    · by_cases hp : 90 ≤ s.mixingProgress
      · exact ⟨by simpa [mixStep, hm, hp] using h1, by simpa [mixStep, hm, hp] using h2,
          by simpa [mixStep, hm, hp] using h3, by simpa [mixStep, hm, hp] using h4,
          by simpa [mixStep, hm, hp] using h5⟩
      · refine ⟨by simpa [mixStep, hm, hp] using h1, by simpa [mixStep, hm, hp] using h2,
          by simpa [mixStep, hm, hp] using h3, by simpa [mixStep, hm, hp] using h4, ?_⟩
        have : s.mixingProgress < 90 := Nat.lt_of_not_le hp
        simp only [mixStep, hm, hp, if_true, if_false]
        omega
    · exact ⟨by simpa [mixStep, hm] using h1, by simpa [mixStep, hm] using h2,
        by simpa [mixStep, hm] using h3, by simpa [mixStep, hm] using h4,
        by simpa [mixStep, hm] using h5⟩
  | respond g ok =>
    by_cases hm : g ∈ s.outstanding
    · by_cases hc : g ∈ s.cancelledGens
      · refine ⟨by simpa [mixStep, hm, hc] using h1, by simp [mixStep, hm, hc],
          ?_, by simpa [mixStep, hm, hc] using h4, by simp [mixStep, hm, hc]⟩
        intro g2 hg2
        simp only [mixStep, hm, hc, if_true, if_false] at hg2 ⊢
        exact h3 g2 (List.mem_of_mem_erase hg2)
      · cases ok with
        | true =>
          refine ⟨?_, by simp [mixStep, hm, hc], ?_, ?_, by simp [mixStep, hm, hc]⟩
          · intro g2 hg2
            simp only [mixStep, hm, hc, if_true, if_false, List.mem_append,
              List.mem_singleton] at hg2
            rcases hg2 with hg2 | hg2
            · simpa [mixStep, hm, hc] using h1 g2 hg2
            · simp [mixStep, hm, hc, hg2]
          · intro g2 hg2
            simp only [mixStep, hm, hc, if_true, if_false] at hg2
            simp only [mixStep, hm, hc, if_true, if_false]
            exact h3 g2 (List.mem_of_mem_erase hg2)
          · intro g2 hg2
            simp only [mixStep, hm, hc, if_true, if_false, List.mem_append,
              List.mem_singleton] at hg2
            simp only [mixStep, hm, hc, if_true, if_false]
            rcases hg2 with hg2 | hg2
            · exact h4 g2 hg2
            · exact hg2 ▸ h3 g hm
        | false =>
          refine ⟨by simpa [mixStep, hm, hc] using h1, by simp [mixStep, hm, hc],
            ?_, by simpa [mixStep, hm, hc] using h4, by simp [mixStep, hm, hc]⟩
          intro g2 hg2
          simp only [mixStep, hm, hc, if_true, if_false] at hg2 ⊢
          exact h3 g2 (List.mem_of_mem_erase hg2)
    · exact ⟨by simpa [mixStep, hm] using h1, by simpa [mixStep, hm] using h2,
        by simpa [mixStep, hm] using h3, by simpa [mixStep, hm] using h4,
        by simpa [mixStep, hm] using h5⟩
  | settle g =>
    by_cases hm : g ∈ s.settleTimers
    · exact ⟨by simpa [mixStep, hm] using h1, by simpa [mixStep, hm] using h2,
        by simpa [mixStep, hm] using h3, by simpa [mixStep, hm] using h4,
        by simp [mixStep, hm]⟩
    · exact ⟨by simpa [mixStep, hm] using h1, by simpa [mixStep, hm] using h2,
        by simpa [mixStep, hm] using h3, by simpa [mixStep, hm] using h4,
        by simpa [mixStep, hm] using h5⟩

theorem mixInv_foldl : ∀ (es : List MixEv) (s : MixState), MixInv s → MixInv (es.foldl mixStep s)
  | [], _, h => h
  | e :: es, s, h => mixInv_foldl es (mixStep s e) (mixInv_step s e h)

theorem mixInv_run (es : List MixEv) : MixInv (mixRun es) :=
  mixInv_foldl es mixInit mixInv_init

theorem dirtyInv_write (serialize : Config → Option String) (s : SimState) :
    DirtyInv serialize (dirtyWriteEffects serialize s) := by
  intro c hc
  cases hcfg : s.config with
  | none =>
    simp only [dirtyWriteEffects, hcfg] at hc
    exact absurd hc (by simp)
  | some c0 =>
    cases hser : serialize c0 with
    | some str0 =>
      simp only [dirtyWriteEffects, hcfg, hser] at hc ⊢
      obtain rfl : c0 = c := by simpa using hc
      constructor
      · intro str hstr
        obtain rfl : str0 = str := by rw [hser] at hstr; simpa using hstr
        rfl
      · intro hnone
        exact absurd (hser.symm.trans hnone) (by simp)
    | none =>
      simp only [dirtyWriteEffects, hcfg, hser] at hc
      obtain rfl : c0 = c := by simpa using hc
      refine ⟨?_, ?_⟩
      · intro str hstr
        rw [hser] at hstr
        simp at hstr
      · intro _
        simp [dirtyWriteEffects, hcfg, hser]

theorem dirtyInv_effects (serialize : Config → Option String) (s : SimState) :
    DirtyInv serialize (applyConfigEffects serialize s) :=
  dirtyInv_write serialize (persistScenarioSlot s)

theorem debounceEmits_burst (W : Nat) :
    ∀ (l : List (Nat × Config)) (x : Nat × Config), BurstWithin W (x :: l) →
      debounceEmits W (x :: l) =
        [(((x :: l).getLast (List.cons_ne_nil x l)).1 + W,
          ((x :: l).getLast (List.cons_ne_nil x l)).2)]
  | [], x, _ => by simp [debounceEmits]
  | y :: t, x, h => by
    have hrel : y.1 < x.1 + W := (List.chain'_cons.mp h).1
    have htail : BurstWithin W (y :: t) := (List.chain'_cons.mp h).2
    have ih := debounceEmits_burst W t y htail
    rw [List.getLast_cons_cons]
    simpa [debounceEmits, hrel] using ih

theorem effectCalls_single_emit (init : Option Config) (v : Config) :
    effectCalls init [ComputeTrigger.emit v] = (if hasArrays v then [v] else []) := by
  by_cases h : hasArrays v <;> simp [effectCalls, effectStep, h]

theorem effectCalls_emit_then_recreated (init : Option Config) (v : Config)
    (hv : hasArrays v = true) :
    effectCalls init [ComputeTrigger.emit v, ComputeTrigger.calcRecreated] = [v, v] := by
  simp [effectCalls, effectStep, hv]

/-! ## Claim theorems -/

/-- C1, counterexample. The claim states that within every operation
class a superseded generation's result is never applied to the visible
output. For the fast-path compute scheduler (`calculate`), the source has
no staleness check: in the trace where generation 0 is invoked, then
generation 1 is invoked (superseding 0), generation 1's response (payload
201) arrives and then generation 0's late response (payload 200) arrives,
the superseded generation 0's payload ends up in the visible `results`
state (ghost `staleApplies = [0]` records the stale application). -/
theorem calc_stale_result_applied_counterexample :
    (calcRun [CalcEv.invoke, CalcEv.invoke, CalcEv.respond 1 201,
      CalcEv.respond 0 200]).results = some 200 ∧
    (calcRun [CalcEv.invoke, CalcEv.invoke, CalcEv.respond 1 201,
      CalcEv.respond 0 200]).resultGen = some 0 ∧
    (calcRun [CalcEv.invoke, CalcEv.invoke, CalcEv.respond 1 201,
      CalcEv.respond 0 200]).staleApplies = [0] ∧
    (calcRun [CalcEv.invoke, CalcEv.invoke, CalcEv.respond 1 201,
      CalcEv.respond 0 200]).nextGen = 2 := by decide

/-- C1, amended. For the mixing call (`mixImages`): starting a new
generation cancels the token of the generation currently holding it, and
a generation whose token was cancelled before its response arrived never
has its result applied to the output slot (its await rejects into the
`axios.isCancel` branch). No corresponding guarantee exists for the
fast-path compute scheduler or the page-level polled job. -/
theorem mixer_cancelled_generation_never_applied :
    (∀ (s : MixState) (p : Nat), s.token = some p →
      p ∈ (mixStep s MixEv.start).cancelledGens) ∧
    (∀ (es : List MixEv) (g : Nat), g ∈ (mixRun es).appliedLog →
      g ∉ (mixRun es).cancelledGens) := by
  constructor
  · intro s p hp
    simp [mixStep, hp]
  · intro es g hg
    exact (mixInv_run es).1 g hg

/-- C1, witness for the amended theorem: generation 0 holds the token
after a start, so a second start cancels it; and in a trace where
generation 0 completes successfully, it was applied and is not among the
cancelled generations. -/
theorem mixer_cancelled_generation_never_applied_witness :
    0 ∈ (mixStep (mixRun [MixEv.start]) MixEv.start).cancelledGens ∧
    (0 ∈ (mixRun [MixEv.start, MixEv.respond 0 true]).appliedLog ∧
     0 ∉ (mixRun [MixEv.start, MixEv.respond 0 true]).cancelledGens) :=
  ⟨mixer_cancelled_generation_never_applied.1 (mixRun [MixEv.start]) 0 (by decide),
   by decide,
   mixer_cancelled_generation_never_applied.2 [MixEv.start, MixEv.respond 0 true] 0
     (by decide)⟩

/-- C2, counterexample. The claim states the autosave invokes the remote
save only if the configuration is dirty (and a suppression flag is
false). In the reachable state after loading scenario "s1", successfully
autosaving it, and then applying a content-preserving mutation (an empty
`updateConfig`, which creates a fresh object and re-triggers the
debounce), the configuration is clean (`dirty = false`), yet the
auto-save effect's entire guard (`debouncedConfig && currentScenario`,
with the debounced value settled to the current config) and
`saveScenario`'s guard both pass: the remote save fires with
`dirty = false`, and no suppression flag exists anywhere in the source. -/
theorem autosave_fires_when_clean_counterexample :
    (simRun serializeC [SimEv.load "s1" cfgA, SimEv.saveStart,
        SimEv.saveDoneOk "s1" cfgA "t0",
      SimEv.mutate (Mut.upd [])]).dirty = false ∧
    autosaveEffectFires
      (simRun serializeC [SimEv.load "s1" cfgA, SimEv.saveStart,
        SimEv.saveDoneOk "s1" cfgA "t0",
        SimEv.mutate (Mut.upd [])]).config
      (simRun serializeC [SimEv.load "s1" cfgA, SimEv.saveStart,
        SimEv.saveDoneOk "s1" cfgA "t0",
        SimEv.mutate (Mut.upd [])]).currentScenario = true ∧
    saveScenarioProceeds
      (simRun serializeC [SimEv.load "s1" cfgA, SimEv.saveStart,
        SimEv.saveDoneOk "s1" cfgA "t0",
        SimEv.mutate (Mut.upd [])]).config
      (simRun serializeC [SimEv.load "s1" cfgA, SimEv.saveStart,
        SimEv.saveDoneOk "s1" cfgA "t0",
        SimEv.mutate (Mut.upd [])]).currentScenario = true := by decide

/-- C2, amended. When the debounced configuration settles (and after the
500 ms coalescing delay), the auto-save effect invokes the remote save
if and only if the debounced configuration is non-null and a current
scenario id is bound — and `saveScenario` itself proceeds iff the config
and the id are non-null. The guard involves no dirty check and no
suppression flag. -/
theorem autosave_gate_characterization :
    ∀ (d cfg : Option Config) (sc sid : Option String),
      (autosaveEffectFires d sc = true ↔ d.isSome = true ∧ sc.isSome = true) ∧
      (saveScenarioProceeds cfg sid = true ↔ cfg.isSome = true ∧ sid.isSome = true) := by
  intro d cfg sc sid
  constructor <;> simp [autosaveEffectFires, saveScenarioProceeds]

/-- C3, counterexample. The claim states the dirty flag always equals
whether the serialized current configuration differs from the last saved
snapshot. But `saveScenario` closes over the config captured when the
save was issued: in the reachable trace where scenario "s1" is loaded
with `cfgA`, a save of `cfgA` starts, the user then adds an array (the
current config becomes `cfgA1`, dirty recomputed true), and the in-flight
save of the captured `cfgA` completes successfully, the completion sets
`lastSavedRef := JSON.stringify(cfgA)` and `isDirtyRef := false` — while
the current config is `cfgA1`, whose serialization differs from the
saved snapshot. The dirty-tracking effect does not re-run (config did
not change at completion), so `dirty = false` stands while current and
saved snapshots differ. -/
theorem dirty_clean_after_concurrent_edit_counterexample :
    (simRun serializeC [SimEv.load "s1" cfgA, SimEv.saveStart,
      SimEv.mutate (Mut.add { id := "a1", entries := [] }),
      SimEv.saveDoneOk "s1" cfgA "t0"]).dirty = false ∧
    (simRun serializeC [SimEv.load "s1" cfgA, SimEv.saveStart,
      SimEv.mutate (Mut.add { id := "a1", entries := [] }),
      SimEv.saveDoneOk "s1" cfgA "t0"]).config = some cfgA1 ∧
    ¬ ((simRun serializeC [SimEv.load "s1" cfgA, SimEv.saveStart,
      SimEv.mutate (Mut.add { id := "a1", entries := [] }),
      SimEv.saveDoneOk "s1" cfgA "t0"]).lastSaved = serializeC cfgA1) := by decide

/-- C3, amended. After every configuration mutation (and load), dirty is
recomputed by comparing the serialized current state to the last Save
Record snapshot, a serialization failure conservatively setting
`dirty = true`; invoking `saveScenario` (with config and scenario id
bound at call time) captures the current config; and the successful
completion of an in-flight save updates the Save Record to the CAPTURED
config's snapshot and a new timestamp (state and localStorage) and
resets dirty to false. Hence `dirty == (currentSnapshot !=
lastSavedSnapshot)` holds after every configuration change, but a save
completing after a concurrent edit restores `dirty = false` even though
the current snapshot differs from the saved one, until the next edit
recomputes it. -/
theorem dirty_recompute_and_save_record :
    ∀ (serialize : Config → Option String),
      (∀ (s : SimState) (m : Mut),
        DirtyInv serialize (simStep serialize s (SimEv.mutate m))) ∧
      (∀ (s : SimState) (sid : String) (data : Config),
        DirtyInv serialize (simStep serialize s (SimEv.load sid data))) ∧
      (∀ (s : SimState) (c : Config) (sid : String),
        s.config = some c → s.currentScenario = some sid →
        (simStep serialize s SimEv.saveStart).pendingSaves =
          s.pendingSaves ++ [(sid, c)]) ∧
      (∀ (s : SimState) (sid : String) (c : Config) (now str : String),
        (sid, c) ∈ s.pendingSaves → serialize c = some str →
        (simStep serialize s (SimEv.saveDoneOk sid c now)).dirty = false ∧
        (simStep serialize s (SimEv.saveDoneOk sid c now)).lastSaved = some str ∧
        (simStep serialize s (SimEv.saveDoneOk sid c now)).lastSaveTime = some now ∧
        (simStep serialize s (SimEv.saveDoneOk sid c now)).localLastSave = some now) := by
  intro serialize
  refine ⟨fun s m => dirtyInv_effects serialize _,
    fun s sid data => dirtyInv_effects serialize _, ?_, ?_⟩
  · intro s c sid hc hsc
    simp [simStep, hc, hsc]
  · intro s sid c now str hmem hser
    simp [simStep, hmem, hser]

/-- C3, witness: after loading "s1" with the empty config (serializing to
"|-"), a further mutation leaves dirty equal to the snapshot comparison;
starting a save captures ("s1", cfgA); and completing that pending save
at "t0" clears dirty and updates the Save Record. -/
theorem dirty_recompute_and_save_record_witness :
    ((simStep serializeC (simRun serializeC [SimEv.load "s1" cfgA])
        (SimEv.mutate (Mut.upd []))).dirty =
      decide ((simStep serializeC (simRun serializeC [SimEv.load "s1" cfgA])
        (SimEv.mutate (Mut.upd []))).lastSaved ≠ some "|-")) ∧
    ((simStep serializeC (simRun serializeC [SimEv.load "s1" cfgA])
        SimEv.saveStart).pendingSaves = [] ++ [("s1", cfgA)]) ∧
    ((simStep serializeC (simRun serializeC [SimEv.load "s1" cfgA, SimEv.saveStart])
        (SimEv.saveDoneOk "s1" cfgA "t0")).dirty = false ∧
      (simStep serializeC (simRun serializeC [SimEv.load "s1" cfgA, SimEv.saveStart])
        (SimEv.saveDoneOk "s1" cfgA "t0")).lastSaved = some "|-" ∧
      (simStep serializeC (simRun serializeC [SimEv.load "s1" cfgA, SimEv.saveStart])
        (SimEv.saveDoneOk "s1" cfgA "t0")).lastSaveTime = some "t0" ∧
      (simStep serializeC (simRun serializeC [SimEv.load "s1" cfgA, SimEv.saveStart])
        (SimEv.saveDoneOk "s1" cfgA "t0")).localLastSave = some "t0") :=
  ⟨(((dirty_recompute_and_save_record serializeC).1
      (simRun serializeC [SimEv.load "s1" cfgA]) (Mut.upd [])) cfgA
      (by decide)).1 "|-" (by decide),
   (dirty_recompute_and_save_record serializeC).2.2.1
      (simRun serializeC [SimEv.load "s1" cfgA]) cfgA "s1" (by decide) (by decide),
   (dirty_recompute_and_save_record serializeC).2.2.2
      (simRun serializeC [SimEv.load "s1" cfgA, SimEv.saveStart]) "s1" cfgA "t0" "|-"
      (by decide) (by decide)⟩

/-- C4, counterexample. The claim states progress is monotonically
non-decreasing while a generation is active and resets to 0 only after
the success-settle delay or immediately on failure/cancellation. In the
trace where generation 0 succeeds (scheduling its 500 ms settle timeout),
generation 1 starts and ticks to progress 10, and then generation 0's
stale settle timeout fires, progress drops from 10 to 0 in the middle of
active generation 1 (still mixing, token live, no failure). -/
theorem progress_drops_via_stale_settle_counterexample :
    (mixRun [MixEv.start, MixEv.respond 0 true, MixEv.start,
      MixEv.tick 1]).mixingProgress = 10 ∧
    0 ∈ (mixRun [MixEv.start, MixEv.respond 0 true, MixEv.start,
      MixEv.tick 1]).settleTimers ∧
    (mixRun [MixEv.start, MixEv.respond 0 true, MixEv.start, MixEv.tick 1,
      MixEv.settle 0]).mixingProgress = 0 ∧
    (mixRun [MixEv.start, MixEv.respond 0 true, MixEv.start, MixEv.tick 1,
      MixEv.settle 0]).isMixing = true ∧
    (mixRun [MixEv.start, MixEv.respond 0 true, MixEv.start, MixEv.tick 1,
      MixEv.settle 0]).token = some 1 := by decide

/-- C4, amended. Mixing progress always lies within [0,100] in every
trace; a generation's own activity never decreases it (every ticker tick
is non-decreasing, and the successful completion of an uncancelled
generation sets it to 100), so monotonicity during an active generation
holds in the absence of stale timer/handler events from earlier
generations; and on the page-level polled path the progress value simply
mirrors the latest server-reported value. -/
theorem mix_progress_bounds_and_monotone :
    (∀ es : List MixEv, (mixRun es).mixingProgress ≤ 100) ∧
    (∀ (s : MixState) (g : Nat),
      s.mixingProgress ≤ (mixStep s (MixEv.tick g)).mixingProgress) ∧
    (∀ (s : MixState) (g : Nat), s.mixingProgress ≤ 100 → g ∉ s.cancelledGens →
      s.mixingProgress ≤ (mixStep s (MixEv.respond g true)).mixingProgress) ∧
    (∀ (co : Fin 2 → Option Nat) (ca : Fin 2) (s : PageState) (p : Int),
      (pollTick co ca s (PollResp.running p)).1.progress = some p) := by
  refine ⟨fun es => (mixInv_run es).2.2.2.2, ?_, ?_, fun _ _ _ _ => rfl⟩
  · intro s g
    by_cases hm : g ∈ s.activeTickers
    · by_cases hp : 90 ≤ s.mixingProgress
      · simp [mixStep, hm, hp]
      · simp only [mixStep, hm, hp, if_true, if_false]
        omega
    · simp [mixStep, hm]
  · intro s g h100 hc
    by_cases hm : g ∈ s.outstanding
    · simpa [mixStep, hm, hc] using h100
    · simp [mixStep, hm]

/-- C4, witness: in the one-start trace, progress (0) is within bounds
and an uncancelled successful completion does not decrease it. -/
theorem mix_progress_bounds_and_monotone_witness :
    (mixRun [MixEv.start]).mixingProgress ≤ 100 ∧
    (mixRun [MixEv.start]).mixingProgress ≤
      (mixStep (mixRun [MixEv.start]) (MixEv.respond 0 true)).mixingProgress :=
  ⟨mix_progress_bounds_and_monotone.1 [MixEv.start],
   mix_progress_bounds_and_monotone.2.2.1 (mixRun [MixEv.start]) 0
     (mix_progress_bounds_and_monotone.1 [MixEv.start]) (by decide)⟩

/-- C5. On a failed mixing call the progress ticker is NOT stopped: in
the trace where generation 0's request fails, progress is reset to 0 and
mixing stops, but generation 0's 100 ms interval is still installed and
two further ticks push the progress back up to 20 while the class is
idle — contradicting the claim that the ticker is stopped immediately on
failure (the `progressInterval` variable is scoped inside the `try`
block, so the `catch` branch cannot clear it). -/
theorem failed_mix_ticker_keeps_running :
    (mixRun [MixEv.start, MixEv.respond 0 false]).mixingProgress = 0 ∧
    (mixRun [MixEv.start, MixEv.respond 0 false]).isMixing = false ∧
    0 ∈ (mixRun [MixEv.start, MixEv.respond 0 false]).activeTickers ∧
    (mixRun [MixEv.start, MixEv.respond 0 false, MixEv.tick 0,
      MixEv.tick 0]).mixingProgress = 20 := by decide

/-- C6, counterexample. The claim states that when the termination signal
fires with `dirty = false`, local bookkeeping (a durable local write of
the configuration and a new timestamp) is still performed. In the
reachable clean state (scenario loaded and successfully saved at "t0"),
the handler returns at the `lastSavedRef.current === currentJson` check
before any write: it attempts no network write AND performs no local
write — the state is completely unchanged and the local LAST_SAVE slot
still holds "t0", not the new timestamp "t9". -/
theorem unload_clean_skips_local_bookkeeping_counterexample :
    (simRun serializeC [SimEv.load "s1" cfgA, SimEv.saveStart,
        SimEv.saveDoneOk "s1" cfgA "t0"]).dirty = false ∧
    unloadHandler serializeC "t9" true true
        (simRun serializeC [SimEv.load "s1" cfgA, SimEv.saveStart,
        SimEv.saveDoneOk "s1" cfgA "t0"]) =
      (simRun serializeC [SimEv.load "s1" cfgA, SimEv.saveStart,
        SimEv.saveDoneOk "s1" cfgA "t0"], []) ∧
    (simRun serializeC [SimEv.load "s1" cfgA, SimEv.saveStart,
        SimEv.saveDoneOk "s1" cfgA "t0"]).localLastSave =
      some "t0" := by decide

/-- C6, amended. When the termination signal fires with a bound scenario
id and a serializable config: if the serialized config differs from the
last saved snapshot (dirty), the handler attempts exactly the write
produced by the transport cascade (the keepalive PUT when `fetch` does
not throw — exactly one write in that case — otherwise the beacon when
available, otherwise nothing) and durably writes the serialized config
and the new timestamp to the local slots; if the snapshots are equal
(clean), the handler does nothing at all — no network write and no local
bookkeeping. -/
theorem unload_dirty_write_clean_noop :
    ∀ (serialize : Config → Option String) (now : String)
      (fetchOk beaconAvail : Bool) (s : SimState) (sc : String) (c : Config)
      (str : String),
      s.currentScenario = some sc → s.config = some c → serialize c = some str →
      ((¬ s.lastSaved = some str →
        (unloadHandler serialize now fetchOk beaconAvail s).2 =
          (if fetchOk then [NetWrite.put sc str]
           else if beaconAvail then [NetWrite.beacon sc str] else []) ∧
        (fetchOk = true →
          (unloadHandler serialize now fetchOk beaconAvail s).2.length = 1) ∧
        (unloadHandler serialize now fetchOk beaconAvail s).1.localConfig = some str ∧
        (unloadHandler serialize now fetchOk beaconAvail s).1.localLastSave = some now ∧
        (unloadHandler serialize now fetchOk beaconAvail s).1.lastSaveTime = some now) ∧
      (s.lastSaved = some str →
        unloadHandler serialize now fetchOk beaconAvail s = (s, []))) := by
  intro serialize now fetchOk beaconAvail s sc c str hsc hc hser
  constructor
  · intro hne
    refine ⟨?_, ?_, ?_, ?_, ?_⟩
    · simp [unloadHandler, hsc, hc, hser, if_neg hne]
    · intro hF
      simp [unloadHandler, hsc, hc, hser, if_neg hne, hF]
    · simp [unloadHandler, hsc, hc, hser, if_neg hne]
    · simp [unloadHandler, hsc, hc, hser, if_neg hne]
    · simp [unloadHandler, hsc, hc, hser, if_neg hne]
  · intro heq
    simp [unloadHandler, hsc, hc, hser, heq]

/-- C6, witness: in the dirty state right after loading "s1" (nothing
saved yet), the handler attempts exactly one keepalive PUT and updates
the local slots with the new timestamp; in the clean state after a
successful save it does nothing. -/
theorem unload_dirty_write_clean_noop_witness :
    ((¬ (simRun serializeC [SimEv.load "s1" cfgA]).lastSaved = some "|-" →
      (unloadHandler serializeC "t9" true true
          (simRun serializeC [SimEv.load "s1" cfgA])).2 =
        (if true then [NetWrite.put "s1" "|-"]
         else if true then [NetWrite.beacon "s1" "|-"] else []) ∧
      (true = true →
        (unloadHandler serializeC "t9" true true
          (simRun serializeC [SimEv.load "s1" cfgA])).2.length = 1) ∧
      (unloadHandler serializeC "t9" true true
        (simRun serializeC [SimEv.load "s1" cfgA])).1.localConfig = some "|-" ∧
      (unloadHandler serializeC "t9" true true
        (simRun serializeC [SimEv.load "s1" cfgA])).1.localLastSave = some "t9" ∧
      (unloadHandler serializeC "t9" true true
        (simRun serializeC [SimEv.load "s1" cfgA])).1.lastSaveTime = some "t9") ∧
     ((simRun serializeC [SimEv.load "s1" cfgA]).lastSaved = some "|-" →
      unloadHandler serializeC "t9" true true
          (simRun serializeC [SimEv.load "s1" cfgA]) =
        (simRun serializeC [SimEv.load "s1" cfgA], []))) ∧
    ¬ (simRun serializeC [SimEv.load "s1" cfgA]).lastSaved = some "|-" :=
  ⟨unload_dirty_write_clean_noop serializeC "t9" true true
      (simRun serializeC [SimEv.load "s1" cfgA]) "s1" cfgA "|-"
      (by decide) (by decide) (by decide),
   by decide⟩

/-- C7, counterexample. The claim states that for every burst of n ≥ 1
edits within the debounce window exactly one computation call fires with
the last edit's value. A one-edit burst whose configuration has an empty
`arrays` list produces exactly one debounced emission but ZERO
computation calls, because the compute-trigger effect additionally
requires `debouncedConfig.arrays && debouncedConfig.arrays.length > 0`. -/
theorem burst_without_arrays_no_compute_call_counterexample :
    debounceEmits 400 [(0, cfgNoArr)] = [(400, cfgNoArr)] ∧
    effectCalls none
      ((debounceEmits 400 [(0, cfgNoArr)]).map
        (fun p => ComputeTrigger.emit p.2)) = [] := by decide

/-- C7, amended. For every burst of n ≥ 1 edits in which each edit
arrives strictly within the window W of the previous one, the debounce
filter emits exactly one value — the last edit's value, at its time plus
W. If the `calculate` callback is not recreated after the burst settles,
exactly one computation call fires, carrying that value, when it is
non-null with a nonempty `arrays` list (and zero calls otherwise); if an
`initializing` flip recreates `calculate` while the settled value is
unchanged, the effect re-runs and fires one additional call carrying the
same value. -/
theorem debounce_burst_single_emission :
    ∀ (W : Nat) (x : Nat × Config) (l : List (Nat × Config))
      (init : Option Config),
      BurstWithin W (x :: l) →
      debounceEmits W (x :: l) =
        [(((x :: l).getLast (List.cons_ne_nil x l)).1 + W,
          ((x :: l).getLast (List.cons_ne_nil x l)).2)] ∧
      effectCalls init
        ((debounceEmits W (x :: l)).map (fun p => ComputeTrigger.emit p.2)) =
        (if hasArrays ((x :: l).getLast (List.cons_ne_nil x l)).2 then
          [((x :: l).getLast (List.cons_ne_nil x l)).2]
         else []) ∧
      (hasArrays ((x :: l).getLast (List.cons_ne_nil x l)).2 = true →
        effectCalls init
          (((debounceEmits W (x :: l)).map (fun p => ComputeTrigger.emit p.2)) ++
            [ComputeTrigger.calcRecreated]) =
          [((x :: l).getLast (List.cons_ne_nil x l)).2,
           ((x :: l).getLast (List.cons_ne_nil x l)).2]) := by
  intro W x l init h
  have h1 := debounceEmits_burst W l x h
  refine ⟨h1, ?_, ?_⟩
  · rw [h1]
    exact effectCalls_single_emit init _
  · intro hv
    rw [h1]
    exact effectCalls_emit_then_recreated init _ hv

/-- C7, witness — the spec's own scenario: edits at t = 0, 100, 150 ms
with W = 400 ms produce exactly one emission at t = 550 ms carrying the
third edit's value, and exactly one computation call with that value
when `calculate` is not recreated; a subsequent `initializing` flip
fires a second call with the same value. -/
theorem debounce_burst_single_emission_witness :
    debounceEmits 400 [(0, cfgA), (100, cfgA), (150, cfgB)] = [(550, cfgB)] ∧
    effectCalls none
      ((debounceEmits 400 [(0, cfgA), (100, cfgA), (150, cfgB)]).map
        (fun p => ComputeTrigger.emit p.2)) = [cfgB] ∧
    effectCalls none
      (((debounceEmits 400 [(0, cfgA), (100, cfgA), (150, cfgB)]).map
        (fun p => ComputeTrigger.emit p.2)) ++ [ComputeTrigger.calcRecreated]) =
      [cfgB, cfgB] := by
  have h := debounce_burst_single_emission 400 (0, cfgA) [(100, cfgA), (150, cfgB)]
    none (by norm_num [List.chain'_cons])
  exact ⟨h.1, by simpa using h.2.1, by simpa using h.2.2 (by decide)⟩

/-- C8. Bootstrap reconciliation. If the locally cached scenario id is
present in the freshly fetched catalog and a cached config string exists
and parses, the configuration is restored from the local cache with no
remote fetch of the item (`fetched = []`, `lastSavedRef` untouched).
Otherwise (cache unusable), with a nonempty catalog whose first entry
fetches successfully, the first catalog entry is fetched fresh
(`fetched = [first.id]`) and its serialized snapshot becomes the initial
Save Record baseline (`lastSavedRef = JSON.stringify(data)`). -/
theorem bootstrap_restore_or_first_fetch :
    ∀ (serialize : Config → Option String) (parse : String → Option Config)
      (fetchScenario : String → Option Config) (catalog : List ScenarioMeta),
      (∀ (sid cfgStr : String) (data : Config),
        catalog.any (fun m => m.id == sid) = true → parse cfgStr = some data →
        bootstrapSequencer serialize parse fetchScenario catalog
            (some sid) (some cfgStr) =
          { currentScenario := some sid, config := some data, lastSaved := none,
            fetched := [], error := false, initializing := false }) ∧
      (∀ (savedId savedCfg : Option String) (m : ScenarioMeta) (data : Config),
        localUsable catalog savedId savedCfg = false → catalog.head? = some m →
        fetchScenario m.id = some data →
        bootstrapSequencer serialize parse fetchScenario catalog savedId savedCfg =
          { currentScenario := some m.id, config := some data,
            lastSaved := serialize data, fetched := [m.id], error := false,
            initializing := false }) := by
  intro serialize parse fetchScenario catalog
  constructor
  · intro sid cfgStr data hmem hparse
    simp [bootstrapSequencer, hmem, initFromLocal, hparse]
  · intro savedId savedCfg m data hloc hhead hfetch
    cases savedId with
    | none => simp [bootstrapSequencer, initFallback, hhead, hfetch]
    | some sid =>
      cases savedCfg with
      | none => simp [bootstrapSequencer, initFallback, hhead, hfetch]
      | some cfgStr =>
        have hany : catalog.any (fun mm => mm.id == sid) = false := by
          simpa [localUsable] using hloc
        simp [bootstrapSequencer, hany, initFallback, hhead, hfetch]

/-- C8, witness: with the two-entry catalog, cached id "s2" present and a
parsable cached config, bootstrap restores locally with no fetch; with an
empty cache, it fetches "s1" remotely and seeds the baseline. -/
theorem bootstrap_restore_or_first_fetch_witness :
    (bootstrapSequencer serializeC parseEx fetchEx catalogEx
        (some "s2") (some "x") =
      { currentScenario := some "s2", config := some cfgB, lastSaved := none,
        fetched := [], error := false, initializing := false }) ∧
    (bootstrapSequencer serializeC parseEx fetchEx catalogEx none none =
      { currentScenario := some "s1", config := some cfgA,
        lastSaved := serializeC cfgA, fetched := ["s1"], error := false,
        initializing := false }) :=
  ⟨(bootstrap_restore_or_first_fetch serializeC parseEx fetchEx catalogEx).1
      "s2" "x" cfgB (by decide) rfl,
   (bootstrap_restore_or_first_fetch serializeC parseEx fetchEx catalogEx).2
      none none { id := "s1", label := "L1" } cfgA (by decide) rfl rfl⟩

/-- C9. Every partial-update operation invoked on a null configuration is
a no-op (`updateConfig`, `updateArray`, `addArray`, `removeArray` all
return the previous state unchanged), and `updateArray`/`removeArray`
invoked on a configuration without an `arrays` field likewise return it
unchanged. -/
theorem partial_updates_null_noop :
    (∀ u, updateConfigOp u none = none) ∧
    (∀ i u, updateArrayOp i u none = none) ∧
    (∀ a, addArrayOp a none = none) ∧
    (∀ i, removeArrayOp i none = none) ∧
    (∀ i u e, updateArrayOp i u (some { entries := e, arrays := none }) =
      some { entries := e, arrays := none }) ∧
    (∀ i e, removeArrayOp i (some { entries := e, arrays := none }) =
      some { entries := e, arrays := none }) :=
  ⟨fun _ => rfl, fun _ _ => rfl, fun _ => rfl, fun _ => rfl,
   fun _ _ _ => rfl, fun _ _ => rfl⟩

/-- C10, counterexample. The claim states a completed mixing operation
replaces only the output slot at the currently selected output viewer
index. In `MixerPage`, the poll callback closes over the `outputs` array
and `activeOutput` index from the render in which polling started: with
viewer 0 captured at start but viewer 1 currently selected, the completed
poll writes the result into slot 0 — not the currently selected slot 1,
which stays empty. -/
theorem poll_completed_stale_viewer_counterexample :
    pageEx.activeOutput = 1 ∧
    pageEx.outputs 0 = none ∧
    (pollTick (fun _ => none) 0 pageEx (PollResp.completed 1 7)).1.outputs 0 =
      some 7 ∧
    (pollTick (fun _ => none) 0 pageEx (PollResp.completed 1 7)).1.outputs 1 =
      none := by
  refine ⟨rfl, rfl, by decide, by decide⟩

/-- C10, amended. In the mixer context (`ImageMixerContext`), whose
success branch reads the refs holding the latest state, a successful mix
replaces only the output slot at the output viewer index selected at
completion time: that slot receives the result, the other output slot and
the four input images, the image weights, the image modes and the image
region modes are all left unchanged. In `MixerPage`, the completed poll
instead writes the result at the viewer index captured when polling
started, into a copy of the captured outputs array. -/
theorem mix_success_output_frame :
    (∀ (s : MixerUIState) (d : Nat) (j : Fin 2), j ≠ s.currentOutputViewer →
      (mixSuccessApply s d).outputImages s.currentOutputViewer = some d ∧
      (mixSuccessApply s d).outputImages j = s.outputImages j ∧
      (mixSuccessApply s d).images = s.images ∧
      (mixSuccessApply s d).imageWeights = s.imageWeights ∧
      (mixSuccessApply s d).imageModes = s.imageModes ∧
      (mixSuccessApply s d).imageRegionModes = s.imageRegionModes) ∧
    (∀ (co : Fin 2 → Option Nat) (ca : Fin 2) (s : PageState) (p : Int) (r : Nat),
      (pollTick co ca s (PollResp.completed p r)).1.outputs =
        Function.update co ca (some r)) := by
  constructor
  · intro s d j hj
    refine ⟨?_, ?_, rfl, rfl, rfl, rfl⟩
    · simp [mixSuccessApply]
    · simp [mixSuccessApply, Function.update_noteq hj]
  · intro co ca s p r
    rfl

/-- C10, witness: with output viewer 0 selected in the concrete mixer
state, a successful mix writes slot 0 and leaves slot 1, the images,
weights and modes unchanged. -/
theorem mix_success_output_frame_witness :
    (1 : Fin 2) ≠ mixerUIEx.currentOutputViewer ∧
    ((mixSuccessApply mixerUIEx 7).outputImages mixerUIEx.currentOutputViewer =
      some 7 ∧
    (mixSuccessApply mixerUIEx 7).outputImages 1 = mixerUIEx.outputImages 1 ∧
    (mixSuccessApply mixerUIEx 7).images = mixerUIEx.images ∧
    (mixSuccessApply mixerUIEx 7).imageWeights = mixerUIEx.imageWeights ∧
    (mixSuccessApply mixerUIEx 7).imageModes = mixerUIEx.imageModes ∧
    (mixSuccessApply mixerUIEx 7).imageRegionModes = mixerUIEx.imageRegionModes) :=
  ⟨by decide, mix_success_output_frame.1 mixerUIEx 7 1 (by decide)⟩
